import Mathlib

/-!
Shallow embedding of `src/app.py` (paperless-ngx-companion): a webhook-triggered
document post-processing pipeline (download, rasterize, OCR, optional LLM
formatting/titling, backend update), together with theorems checking the
specification's claims against it.

Python strings are modelled as Lean `String`; byte payloads as `List Nat`;
the external collaborators (backend HTTP, PDF/image decoding, OCR engine,
LLM completion service) are oracles supplied through a `World` record, so
the pipeline's control flow is a pure function of the world and the request.
-/

namespace Paperless

/-- Byte payloads (`bytes` in Python) as lists of byte values. -/
abbrev Bytes := List Nat

/-- Python slicing `s[:n]` on a string: the first `n` code points. -/
def pyTake (s : String) (n : Nat) : String :=
  String.mk (s.data.take n)

/-- Python `s.strip()`: drop whitespace from both ends. -/
def pyStrip (s : String) : String :=
  String.mk (((s.data.dropWhile Char.isWhitespace).reverse.dropWhile Char.isWhitespace).reverse)

/-- `MAX_TITLE_LENGTH = 80` (app.py line 21). -/
def MAX_TITLE_LENGTH : Nat := 80

/-- `LLM_INPUT_CHAR_LIMIT = 4000` (app.py line 27). -/
def LLM_INPUT_CHAR_LIMIT : Nat := 4000

/-- `LLM_FORMAT_INPUT_CHAR_LIMIT = 6000` (app.py line 34). -/
def LLM_FORMAT_INPUT_CHAR_LIMIT : Nat := 6000

/-! ## Document-id extraction (`_extract_doc_id`, app.py lines 66-72)

`re.search(r"/documents/(\d+)/", doc_url)` scans the string left to right and,
at the first position where the literal `/documents/` is followed by a
nonempty digit run that is immediately followed by `/`, captures that digit
run.  (Backtracking inside `\d+` can never help: any shorter digit run is
followed by a digit, not `/`.)  We embed that search directly. -/

/-- Consume an expected literal from the front of a character list,
returning the remainder on success. -/
def consumeLit : List Char → List Char → Option (List Char)
  | [], rest => some rest
  | _ :: _, [] => none
  | p :: ps, c :: cs => if c = p then consumeLit ps cs else none

/-- Split a character list into its maximal leading digit run and the rest. -/
def takeDigits : List Char → List Char × List Char
  | [] => ([], [])
  | c :: cs =>
    if c.isDigit then (c :: (takeDigits cs).1, (takeDigits cs).2)
    else ([], c :: cs)

/-- Decimal value of a digit run (`int(match.group(1))`). -/
def digitsToNat (ds : List Char) : Nat :=
  ds.foldl (fun a c => a * 10 + (c.toNat - 48)) 0

/-- The literal `/documents/` of the regex. -/
def docsLit : List Char := "/documents/".data

/-- Does the regex `/documents/(\d+)/` match anchored at the head of `cs`?
If so, return the captured integer. -/
def matchDocAt (cs : List Char) : Option Nat :=
  match consumeLit docsLit cs with
  | none => none
  | some rest =>
    if (takeDigits rest).1 = [] then none
    else if (takeDigits rest).2.head? = some '/' then some (digitsToNat (takeDigits rest).1)
    else none

/-- Leftmost search for the regex, as `re.search` performs it. -/
def scanDocId : List Char → Option Nat
  | [] => none
  | c :: rest =>
    match matchDocAt (c :: rest) with
    | some n => some n
    | none => scanDocId rest

/-- `_extract_doc_id(doc_url)`: `None`/empty input yields `None`; otherwise
the captured integer of the leftmost `/documents/(\d+)/` match, if any. -/
def extract_doc_id : Option String → Option Nat
  | none => none
  | some s => if s = "" then none else scanDocId s.data

/-! ## PDF detection and rasterization (`_is_pdf`, `_images_from_bytes`,
app.py lines 88-97) -/

/-- The PDF magic `b"%PDF"` as byte values. -/
def pdfMagic : Bytes := [37, 80, 68, 70]

/-- Python `s.startswith(p)`: code-point prefix test. -/
def strStartsWith (s p : String) : Bool :=
  p.data.isPrefixOf s.data

/-- `_is_pdf(data, content_type)`: content-type checked first, magic-byte
fallback second. -/
def is_pdf (data : Bytes) (content_type : String) : Bool :=
  if strStartsWith content_type "application/pdf" then true
  else data.take 4 == pdfMagic

/-- `_images_from_bytes(data, content_type)`: choose the PDF renderer or the
single-image decoder according to `_is_pdf`.  The decoders themselves are
external collaborators, passed as oracles; page images are abstract tokens. -/
def images_from_bytes (pdfDec : Bytes → Except Unit (List Nat))
    (imgDec : Bytes → Except Unit Nat) (data : Bytes) (content_type : String) :
    Except Unit (List Nat) :=
  if is_pdf data content_type then pdfDec data
  else (imgDec data).map (fun i => [i])

/-! ## OCR adapter (`_ocr_image`, app.py lines 100-110) -/

/-- `_ocr_image(img)`: raises if the engine is not initialized; otherwise runs
the engine (an oracle returning the raw recognized texts, or failing) and
keeps each text stripped, dropping those that strip to empty. -/
def ocr_image (engineReady : Bool) (engine : Nat → Except Unit (List String))
    (img : Nat) : Except Unit (List String) :=
  if engineReady then
    match engine img with
    | .error e => .error e
    | .ok lines =>
      .ok (lines.filterMap fun t => if pyStrip t = "" then none else some (pyStrip t))
  else .error ()

/-- The webhook's OCR loop over all page images (app.py lines 291-293):
any per-image failure aborts the whole loop. -/
def ocr_all (engineReady : Bool) (engine : Nat → Except Unit (List String)) :
    List Nat → Except Unit (List String)
  | [] => .ok []
  | img :: rest =>
    match ocr_image engineReady engine img with
    | .error e => .error e
    | .ok ts =>
      match ocr_all engineReady engine rest with
      | .error e => .error e
      | .ok more => .ok (ts ++ more)

/-! ## Content assembly (`_build_content`, `_build_title`, app.py lines 113-121) -/

/-- `_build_content(texts)`: newline join. -/
def build_content (texts : List String) : String :=
  String.intercalate "\n" texts

/-- `_build_title(texts)`: first truthy (nonempty) fragment, truncated to
`MAX_TITLE_LENGTH`; `None` if there is none. -/
def build_title : List String → Option String
  | [] => none
  | t :: rest => if t = "" then build_title rest else some (pyTake t MAX_TITLE_LENGTH)

/-! ## LLM stages (`_generate_title_with_llm`, `_format_content_with_llm`,
app.py lines 130-233)

The chat-completion call is an oracle: `err` stands for any raised exception
(transport error, non-2xx `raise_for_status`, JSON decode failure, missing or
malformed fields that raise), while `ok message` is a response whose first
choice's message `content` field is `message` (`none` models a null/missing
field, which the code replaces by `""` via `or ""`). -/

/-- Behaviour of one chat-completion call. -/
inductive LLMCallResult where
  | err
  | ok (message : Option String)

/-- Result of `_generate_title_with_llm` plus whether the network call was
actually issued (it is issued exactly when all three guards pass). -/
structure TitleGenResult where
  result : Option String
  networkCalled : Bool
deriving DecidableEq

/-- `_generate_title_with_llm(content)` with the flag, key and call behaviour
made explicit.  Mirrors app.py lines 130-177. -/
def generate_title_with_llm (llmEnabled : Bool) (apiKey : String) (content : String)
    (call : LLMCallResult) : TitleGenResult :=
  if llmEnabled = false then ⟨none, false⟩
  else if apiKey = "" then ⟨none, false⟩
  else if pyStrip content = "" then ⟨none, false⟩
  else
    match call with
    | .err => ⟨none, true⟩
    | .ok message =>
      if pyStrip (message.getD "") = "" then ⟨none, true⟩
      else ⟨some (pyTake (pyStrip (message.getD "")) MAX_TITLE_LENGTH), true⟩

/-- `_format_content_with_llm(content)` with flags, key and call behaviour made
explicit.  Mirrors app.py lines 180-233, including the length-ratio guardrail
`ratio = len(formatted) / max(len(text), 1)` on the stripped, truncated text. -/
def format_content_with_llm (llmEnabled llmFormatContent : Bool) (apiKey : String)
    (content : String) (call : LLMCallResult) : Option String :=
  if llmEnabled = false || llmFormatContent = false then none
  else if apiKey = "" then none
  else if pyStrip content = "" then none
  else
    match call with
    | .err => none
    | .ok message =>
      if pyStrip (message.getD "") = "" then none
      else
        if ((pyStrip (message.getD "")).length : ℚ) /
              ((max (pyTake (pyStrip content) LLM_FORMAT_INPUT_CHAR_LIMIT).length 1 : Nat) : ℚ)
              < 1/2 ∨
            ((pyStrip (message.getD "")).length : ℚ) /
              ((max (pyTake (pyStrip content) LLM_FORMAT_INPUT_CHAR_LIMIT).length 1 : Nat) : ℚ)
              > 2 then none
        else some (pyStrip (message.getD ""))

/-! ## Backend update payload (`_update_document`, app.py lines 235-249) -/

/-- The JSON body of the PATCH issued by `_update_document`:
`{"content": content}`, with `"title"` merged in only when `title` is truthy. -/
def update_document_payload (content : String) (title : Option String) :
    List (String × String) :=
  match title with
  | none => [("content", content)]
  | some t => if t = "" then [("content", content)] else [("content", content), ("title", t)]

/-! ## The webhook pipeline (`paperless_webhook`, app.py lines 277-324) -/

/-- Behaviour of `_download_document`'s GET (an oracle): `statusError` is a
non-2xx response (`raise_for_status` raises `httpx.HTTPStatusError`),
`transportError` any other `httpx` error, `ok` a 2xx with payload and
content-type. -/
inductive DownloadResult where
  | statusError
  | transportError
  | ok (data : Bytes) (contentType : String)
deriving DecidableEq

/-- Behaviour of `_update_document`'s PATCH (an oracle). -/
inductive UpdateResult where
  | statusError
  | transportError
  | ok
deriving DecidableEq

/-- One invocation's view of process state, configuration and collaborator
behaviours.  All of these are fixed for the duration of one request. -/
structure World where
  clientReady : Bool
  configOk : Bool
  engineReady : Bool
  llmEnabled : Bool
  llmFormatContent : Bool
  apiKey : String
  download : DownloadResult
  pdfDecode : Bytes → Except Unit (List Nat)
  imgDecode : Bytes → Except Unit Nat
  engine : Nat → Except Unit (List String)
  fmtCall : LLMCallResult
  titleCall : LLMCallResult
  update : UpdateResult

/-- The JSON webhook body's two relevant fields. -/
structure WebhookBody where
  doc_url : Option String
  url : Option String

/-- `body.get("doc_url") or body.get("url")`: Python `or` falls through on
falsy values, so an empty `doc_url` string also defers to `url`. -/
def webhook_doc_url (b : WebhookBody) : Option String :=
  match b.doc_url with
  | some s => if s = "" then b.url else some s
  | none => b.url

/-- HTTP outcome of one webhook invocation. -/
inductive HttpOutcome where
  | okResp (docId : Nat)
  | badRequest400
  | notReady503
  | upstream502
  | failed500
deriving DecidableEq

/-- Which backend I/O the invocation performed: whether the download GET was
issued, and the PATCH body if the update was issued. -/
structure Trace where
  downloadCalled : Bool
  updateSent : Option (List (String × String))
deriving DecidableEq

/-- The `POST /paperless-webhook` handler (app.py lines 277-324) as a pure
function of the world and the request body: the response outcome plus the
backend I/O trace.  Exceptions raised inside the `try` block surface as 502
(`httpx.HTTPStatusError`) or 500 (any other exception, including the
`HTTPException(500)` for missing config and the engine-not-ready
`RuntimeError`). -/
def paperless_webhook (w : World) (body : WebhookBody) : HttpOutcome × Trace :=
  if w.clientReady then
    match extract_doc_id (webhook_doc_url body) with
    | none => (.badRequest400, ⟨false, none⟩)
    | some 0 => (.badRequest400, ⟨false, none⟩)
    | some (docId + 1) =>
      if w.configOk then
        match w.download with
        | .statusError => (.upstream502, ⟨true, none⟩)
        | .transportError => (.failed500, ⟨true, none⟩)
        | .ok data ct =>
          match images_from_bytes w.pdfDecode w.imgDecode data ct with
          | .error _ => (.failed500, ⟨true, none⟩)
          | .ok images =>
            match ocr_all w.engineReady w.engine images with
            | .error _ => (.failed500, ⟨true, none⟩)
            | .ok texts =>
              let rawContent := build_content texts
              let content :=
                match format_content_with_llm w.llmEnabled w.llmFormatContent w.apiKey
                    rawContent w.fmtCall with
                | some f => if f = "" then rawContent else f
                | none => rawContent
              let title :=
                match (generate_title_with_llm w.llmEnabled w.apiKey content w.titleCall).result with
                | some t => if t = "" then build_title texts else some t
                | none => build_title texts
              match w.update with
              | .statusError => (.upstream502, ⟨true, some (update_document_payload content title)⟩)
              | .transportError => (.failed500, ⟨true, some (update_document_payload content title)⟩)
              | .ok => (.okResp (docId + 1), ⟨true, some (update_document_payload content title)⟩)
      else (.failed500, ⟨false, none⟩)
  else (.notReady503, ⟨false, none⟩)

/-- A failure in any stage strictly before the backend update: missing
backend config, a failed download, a failed rasterization, or a failed OCR
pass (including the engine not being initialized when the first page is
processed). -/
def preUpdateFailure (w : World) : Prop :=
  w.configOk = false ∨
  w.download = .statusError ∨
  w.download = .transportError ∨
  (∃ data ct, w.download = .ok data ct ∧
    (images_from_bytes w.pdfDecode w.imgDecode data ct = .error () ∨
     ∃ imgs, images_from_bytes w.pdfDecode w.imgDecode data ct = .ok imgs ∧
       ocr_all w.engineReady w.engine imgs = .error ()))

/-- The regex `/documents/(\d+)/` matches `s` at position `i` capturing the
integer `n`: after position `i` the string carries the literal `/documents/`,
then a nonempty digit run of decimal value `n`, then `/`. -/
def MatchesAt (s : List Char) (i : Nat) (n : Nat) : Prop :=
  ∃ ds t, s.drop i = docsLit ++ ds ++ '/' :: t ∧ ds ≠ [] ∧
    (∀ c ∈ ds, c.isDigit = true) ∧ n = digitsToNat ds

/-! ## Concrete worlds and inputs used to instantiate the theorems -/

/-- A world whose backend download GET returns a non-2xx status; everything
else is healthy and the LLM is disabled. -/
def downloadFailWorld : World where
  clientReady := true
  configOk := true
  engineReady := true
  llmEnabled := false
  llmFormatContent := false
  apiKey := ""
  download := .statusError
  pdfDecode := fun _ => .ok []
  imgDecode := fun _ => .ok 0
  engine := fun _ => .ok []
  fmtCall := .err
  titleCall := .err
  update := .ok

/-- A webhook body whose `doc_url` carries document id 7. -/
def docUrlBody7 : WebhookBody := ⟨some "https://x/api/documents/7/", none⟩

/-- A world caught in the startup window: the HTTP client is ready but the
OCR engine is not yet initialized; the backend serves a one-page PDF. -/
def engineNotReadyWorld : World where
  clientReady := true
  configOk := true
  engineReady := false
  llmEnabled := false
  llmFormatContent := false
  apiKey := ""
  download := .ok [37, 80, 68, 70] "application/pdf"
  pdfDecode := fun _ => .ok [0]
  imgDecode := fun _ => .ok 0
  engine := fun _ => .ok ["hello"]
  fmtCall := .err
  titleCall := .err
  update := .ok

/-- A webhook body whose `doc_url` carries document id 3. -/
def docUrlBody3 : WebhookBody := ⟨some "http://x/api/documents/3/", none⟩

/-- A healthy world (used where only request validation matters). -/
def healthyWorld : World where
  clientReady := true
  configOk := true
  engineReady := true
  llmEnabled := false
  llmFormatContent := false
  apiKey := ""
  download := .ok [1] "image/png"
  pdfDecode := fun _ => .ok []
  imgDecode := fun _ => .ok 0
  engine := fun _ => .ok []
  fmtCall := .err
  titleCall := .err
  update := .ok

/-- A webhook body whose `doc_url` matches `/documents/0/` (captured id 0). -/
def docUrlBody0 : WebhookBody := ⟨some "https://x/api/documents/0/", none⟩

/-- A 1000-character formatter input (the spec's guardrail example). -/
def demoFmtInput : String := String.mk (List.replicate 1000 'a')

/-- A 600-character LLM formatter output (ratio 0.6, accepted). -/
def demoFmtOutput : Option String := some (String.mk (List.replicate 600 'b'))

/-- A 400-character LLM formatter output (ratio 0.4, rejected). -/
def demoFmtOutputShort : Option String := some (String.mk (List.replicate 400 'b'))

/-- A concrete PDF-page decoder oracle. -/
def demoPdfDecode : Bytes → Except Unit (List Nat) := fun _ => .ok [1, 2]

/-- A concrete single-image decoder oracle. -/
def demoImgDecode : Bytes → Except Unit Nat := fun _ => .ok 0

/-! ## Lemmas about the regex-search embedding -/

theorem consumeLit_sound : ∀ (p s r : List Char), consumeLit p s = some r → s = p ++ r
  | [], s, r, h => by simpa [consumeLit] using h
  | _ :: _, [], _, h => by simp [consumeLit] at h
  | p :: ps, c :: cs, r, h => by
    by_cases hc : c = p
    · subst hc
      simp only [consumeLit, if_pos rfl] at h
      simpa using consumeLit_sound ps cs r h
    · simp [consumeLit, hc] at h

theorem consumeLit_append : ∀ (p r : List Char), consumeLit p (p ++ r) = some r
  | [], r => rfl
  | c :: ps, r => by simp [consumeLit, consumeLit_append ps r]

theorem takeDigits_sound : ∀ (cs ds rest : List Char), takeDigits cs = (ds, rest) →
    cs = ds ++ rest ∧ ∀ c ∈ ds, c.isDigit = true
  | [], ds, rest, h => by
    simp only [takeDigits, Prod.mk.injEq] at h
    obtain ⟨rfl, rfl⟩ := h
    simp
  | c :: cs, ds, rest, h => by
    by_cases hd : c.isDigit
    · simp only [takeDigits, if_pos hd, Prod.mk.injEq] at h
      obtain ⟨rfl, rfl⟩ := h
      obtain ⟨h1, h2⟩ := takeDigits_sound cs (takeDigits cs).1 (takeDigits cs).2 rfl
      refine ⟨by simpa using h1, ?_⟩
      intro x hx
      rcases List.mem_cons.mp hx with rfl | hx
      · exact hd
      · exact h2 x hx
    · simp only [takeDigits, if_neg hd, Prod.mk.injEq] at h
      obtain ⟨rfl, rfl⟩ := h
      simp

theorem takeDigits_digits : ∀ (ds : List Char) (t : List Char),
    (∀ c ∈ ds, c.isDigit = true) → takeDigits (ds ++ '/' :: t) = (ds, '/' :: t)
  | [], t, _ => by simp [takeDigits]
  | c :: ds, t, h => by
    have hc : c.isDigit = true := h c (List.mem_cons_self ..)
    have ih := takeDigits_digits ds t (fun x hx => h x (List.mem_cons_of_mem _ hx))
    simp [takeDigits, hc, ih]

theorem matchDocAt_iff (cs : List Char) (n : Nat) :
    matchDocAt cs = some n ↔
      ∃ ds t, cs = docsLit ++ ds ++ '/' :: t ∧ ds ≠ [] ∧
        (∀ c ∈ ds, c.isDigit = true) ∧ n = digitsToNat ds := by
  constructor
  · intro h
    cases hcl : consumeLit docsLit cs with
    | none => simp [matchDocAt, hcl] at h
    | some rest =>
      rcases he : takeDigits rest with ⟨ds0, rest2⟩
      simp only [matchDocAt, hcl, he] at h
      by_cases hds : ds0 = []
      · rw [if_pos hds] at h; exact absurd h (by simp)
      · rw [if_neg hds] at h
        by_cases hh : rest2.head? = some '/'
        · rw [if_pos hh] at h
          obtain ⟨h1, h2⟩ := takeDigits_sound rest ds0 rest2 he
          obtain ⟨t, ht⟩ : ∃ t, rest2 = '/' :: t := by
            cases h2' : rest2 with
            | nil => rw [h2'] at hh; simp at hh
            | cons a t => rw [h2'] at hh; simp at hh; exact ⟨t, by rw [hh]⟩
          refine ⟨ds0, t, ?_, hds, h2, by simpa using h.symm⟩
          rw [consumeLit_sound docsLit cs rest hcl, h1, ht, List.append_assoc]
        · rw [if_neg hh] at h; exact absurd h (by simp)
  · rintro ⟨ds, t, rfl, hne, hdig, rfl⟩
    have hassoc : docsLit ++ ds ++ '/' :: t = docsLit ++ (ds ++ '/' :: t) := List.append_assoc ..
    rw [hassoc]
    simp only [matchDocAt, consumeLit_append, takeDigits_digits ds t hdig]
    simp [hne]

theorem matchDocAt_nil : matchDocAt [] = none := rfl

theorem scanDocId_none (s : List Char) (h : ∀ i, matchDocAt (s.drop i) = none) :
    scanDocId s = none := by
  induction s with
  | nil => rfl
  | cons c rest ih =>
    have h0 := h 0
    simp only [List.drop_zero] at h0
    unfold scanDocId
    rw [h0]
    exact ih (fun i => by simpa using h (i + 1))

theorem scanDocId_leftmost : ∀ (s : List Char) (i n : Nat),
    matchDocAt (s.drop i) = some n → (∀ j, j < i → matchDocAt (s.drop j) = none) →
    scanDocId s = some n := by
  intro s
  induction s with
  | nil =>
    intro i n h _
    rw [List.drop_nil, matchDocAt_nil] at h
    exact absurd h (by simp)
  | cons c rest ih =>
    intro i n h hlt
    cases i with
    | zero =>
      simp only [List.drop_zero] at h
      unfold scanDocId
      rw [h]
    | succ i' =>
      have h0 : matchDocAt (c :: rest) = none := by simpa using hlt 0 (Nat.succ_pos i')
      unfold scanDocId
      rw [h0]
      exact ih i' n (by simpa using h)
        (fun j hj => by simpa using hlt (j + 1) (Nat.succ_lt_succ hj))

/-! ## Small string lemmas -/

theorem pyTake_length (s : String) (n : Nat) : (pyTake s n).length ≤ n := by
  simp only [pyTake, String.length]
  exact List.length_take_le n s.data

theorem pyTake_ne_empty (s : String) (n : Nat) (hs : s ≠ "") (hn : 0 < n) :
    pyTake s n ≠ "" := by
  intro h
  apply hs
  have hd : s.data.take n = [] := by
    have h2 := congrArg String.data h
    simpa [pyTake] using h2
  have hnil : s.data = [] := by
    rcases List.take_eq_nil_iff.mp hd with h' | h'
    · omega
    · exact h'
  cases s with
  | mk l =>
    simp only at hnil
    subst hnil
    rfl

/-! ## Claim theorems: extraction, rasterizer decision, fallback title -/

theorem strStartsWith_iff (s p : String) : strStartsWith s p = true ↔ p.data <+: s.data := by
  unfold strStartsWith
  generalize p.data = l₁
  generalize s.data = l₂
  induction l₁ generalizing l₂ with
  | nil => simp [List.isPrefixOf]
  | cons a l₁ ih =>
    cases l₂ with
    | nil => simp [List.isPrefixOf]
    | cons b l₂ =>
      simp [List.isPrefixOf, List.cons_prefix_cons, ih, Bool.and_eq_true, beq_iff_eq]

/-- C3: `_extract_doc_id` is absent on an absent input and on any string with
no `/documents/(\d+)/` match, and on a string whose leftmost match captures
`n` it returns exactly `n`.  (It is a total function by construction.) -/
theorem extract_doc_id_spec :
    extract_doc_id none = none ∧
    (∀ s : String, (¬ ∃ i n, MatchesAt s.data i n) → extract_doc_id (some s) = none) ∧
    (∀ (s : String) (i n : Nat), MatchesAt s.data i n →
      (∀ j m, MatchesAt s.data j m → i ≤ j) → extract_doc_id (some s) = some n) := by
  refine ⟨rfl, ?_, ?_⟩
  · intro s hno
    show (if s = "" then none else scanDocId s.data) = none
    by_cases hs : s = ""
    · rw [if_pos hs]
    · rw [if_neg hs]
      apply scanDocId_none
      intro i
      cases hm : matchDocAt (s.data.drop i) with
      | none => rfl
      | some m => exact absurd ⟨i, m, (matchDocAt_iff _ m).mp hm⟩ hno
  · intro s i n hm hleft
    show (if s = "" then none else scanDocId s.data) = some n
    by_cases hs : s = ""
    · exfalso
      subst hs
      obtain ⟨ds, t, hd, _, _, _⟩ := hm
      have hlen := congrArg List.length hd
      have hdata : ("" : String).data = [] := rfl
      rw [hdata] at hlen
      simp [docsLit] at hlen
    · rw [if_neg hs]
      apply scanDocId_leftmost s.data i n ((matchDocAt_iff _ n).mpr hm)
      intro j hj
      cases hmj : matchDocAt (s.data.drop j) with
      | none => rfl
      | some m =>
        have := hleft j m ((matchDocAt_iff _ m).mp hmj)
        omega

/-- Witness for C3 at the spec's example `.../documents/42/download/`. -/
theorem extract_doc_id_spec_witness :
    MatchesAt ("/documents/42/download/" : String).data 0 42 ∧
    extract_doc_id (some "/documents/42/download/") = some 42 := by
  have hm : MatchesAt ("/documents/42/download/" : String).data 0 42 :=
    ⟨['4', '2'], "download/".data, by decide, by decide, by decide, by decide⟩
  exact ⟨hm, extract_doc_id_spec.2.2 "/documents/42/download/" 0 42 hm
    (fun j m _ => Nat.zero_le j)⟩

/-- C6: the rasterizer treats the payload as PDF exactly when the content-type
begins with `application/pdf` or, failing that, the first four bytes are the
`%PDF` magic; content-type wins (PDF decode attempted even on non-PDF bytes),
and the magic bytes are the fallback for an arbitrary content-type. -/
theorem is_pdf_rasterizer_spec (pdfDec : Bytes → Except Unit (List Nat))
    (imgDec : Bytes → Except Unit Nat) (data : Bytes) (ct : String) :
    (is_pdf data ct = true ↔
      ("application/pdf" : String).data <+: ct.data ∨ data.take 4 = pdfMagic) ∧
    (("application/pdf" : String).data <+: ct.data →
      images_from_bytes pdfDec imgDec data ct = pdfDec data) ∧
    (data.take 4 = pdfMagic → images_from_bytes pdfDec imgDec data ct = pdfDec data) ∧
    (¬ ("application/pdf" : String).data <+: ct.data → data.take 4 ≠ pdfMagic →
      images_from_bytes pdfDec imgDec data ct = (imgDec data).map (fun i => [i])) := by
  have hiff : is_pdf data ct = true ↔
      ("application/pdf" : String).data <+: ct.data ∨ data.take 4 = pdfMagic := by
    unfold is_pdf
    by_cases hp : ("application/pdf" : String).data <+: ct.data
    · rw [if_pos ((strStartsWith_iff ct "application/pdf").mpr hp)]
      simp [hp]
    · rw [if_neg (fun hb => hp ((strStartsWith_iff ct "application/pdf").mp hb))]
      simp [hp, beq_iff_eq]
  refine ⟨hiff, ?_, ?_, ?_⟩
  · intro hp
    unfold images_from_bytes
    rw [if_pos (hiff.mpr (Or.inl hp))]
  · intro hb
    unfold images_from_bytes
    rw [if_pos (hiff.mpr (Or.inr hb))]
  · intro hp hb
    unfold images_from_bytes
    rw [if_neg ?_]
    intro habs
    rcases hiff.mp habs with h | h
    · exact hp h
    · exact hb h

/-- Witness for C6: magic-byte fallback with empty content-type, and
content-type-wins with non-PDF bytes. -/
theorem is_pdf_rasterizer_spec_witness :
    images_from_bytes demoPdfDecode demoImgDecode [37, 80, 68, 70, 9] "" =
      demoPdfDecode [37, 80, 68, 70, 9] ∧
    images_from_bytes demoPdfDecode demoImgDecode [0, 1] "application/pdf" =
      demoPdfDecode [0, 1] := by
  constructor
  · exact (is_pdf_rasterizer_spec demoPdfDecode demoImgDecode [37, 80, 68, 70, 9] "").2.2.1
      (by decide)
  · exact (is_pdf_rasterizer_spec demoPdfDecode demoImgDecode [0, 1] "application/pdf").2.1
      (by decide)

/-- C7: the fallback title is the first nonempty fragment truncated to at most
80 characters, and absent exactly when every fragment is empty (in particular
for the empty sequence). -/
theorem build_title_spec :
    (∀ texts : List String, (build_title texts = none ↔ ∀ t ∈ texts, t = "")) ∧
    (∀ (ps : List String) (t : String) (qs : List String),
      (∀ u ∈ ps, u = "") → t ≠ "" →
      build_title (ps ++ t :: qs) = some (pyTake t MAX_TITLE_LENGTH)) ∧
    (∀ (texts : List String) (t : String), build_title texts = some t →
      t.length ≤ MAX_TITLE_LENGTH) := by
  refine ⟨?_, ?_, ?_⟩
  · intro texts
    induction texts with
    | nil => simp [build_title]
    | cons t rest ih =>
      by_cases ht : t = ""
      · simp [build_title, ht, ih]
      · simp [build_title, ht]
  · intro ps t qs hps ht
    induction ps with
    | nil => simp [build_title, ht]
    | cons u ps ih =>
      have hu : u = "" := hps u (List.mem_cons_self ..)
      have := ih (fun x hx => hps x (List.mem_cons_of_mem _ hx))
      simpa [build_title, hu] using this
  · intro texts
    induction texts with
    | nil => intro t h; simp [build_title] at h
    | cons u rest ih =>
      intro t h
      by_cases hu : u = ""
      · rw [build_title, if_pos hu] at h
        exact ih t h
      · rw [build_title, if_neg hu] at h
        have : t = pyTake u MAX_TITLE_LENGTH := by simpa using h.symm
        rw [this]
        exact pyTake_length u MAX_TITLE_LENGTH

/-- Witness for C7 at the spec's examples. -/
theorem build_title_spec_witness :
    build_title [] = none ∧ build_title ["", "hello world"] = some "hello world" := by
  constructor
  · exact (build_title_spec.1 []).mpr (by simp)
  · have h := build_title_spec.2.1 [""] "hello world" [] (by simp) (by decide)
    have he : pyTake "hello world" MAX_TITLE_LENGTH = "hello world" := by decide
    rw [he] at h
    exact h


/-! ## Claim theorems: LLM guardrail, title generator, update payload -/

set_option maxRecDepth 10000

/-- C4: with formatting enabled, a key configured, nonempty stripped input and
nonempty stripped LLM output, the formatter computes
`ratio = len(output) / max(len(input), 1)` over the stripped, truncated input
text and rejects (returns absent) exactly when `ratio < 0.5` or `ratio > 2.0`,
returning the output when `0.5 ≤ ratio ≤ 2.0`. -/
theorem format_guardrail_spec (apiKey content : String) (message : Option String)
    (hkey : apiKey ≠ "") (hc : pyStrip content ≠ "")
    (hout : pyStrip (message.getD "") ≠ "") :
    ((((pyStrip (message.getD "")).length : ℚ) /
        ((max (pyTake (pyStrip content) LLM_FORMAT_INPUT_CHAR_LIMIT).length 1 : Nat) : ℚ) < 1/2 ∨
      ((pyStrip (message.getD "")).length : ℚ) /
        ((max (pyTake (pyStrip content) LLM_FORMAT_INPUT_CHAR_LIMIT).length 1 : Nat) : ℚ) > 2) →
      format_content_with_llm true true apiKey content (.ok message) = none) ∧
    ((1/2 ≤ ((pyStrip (message.getD "")).length : ℚ) /
        ((max (pyTake (pyStrip content) LLM_FORMAT_INPUT_CHAR_LIMIT).length 1 : Nat) : ℚ) ∧
      ((pyStrip (message.getD "")).length : ℚ) /
        ((max (pyTake (pyStrip content) LLM_FORMAT_INPUT_CHAR_LIMIT).length 1 : Nat) : ℚ) ≤ 2) →
      format_content_with_llm true true apiKey content (.ok message) =
        some (pyStrip (message.getD ""))) := by
  constructor
  · intro hratio
    unfold format_content_with_llm
    rw [if_neg (by simp), if_neg hkey, if_neg hc]
    show (if pyStrip (message.getD "") = "" then none else _) = none
    rw [if_neg hout, if_pos hratio]
  · intro hratio
    unfold format_content_with_llm
    rw [if_neg (by simp), if_neg hkey, if_neg hc]
    show (if pyStrip (message.getD "") = "" then none else _) = _
    rw [if_neg hout, if_neg ?_]
    push_neg
    exact hratio

/-- Witness for C4 at the spec's example: input length 1000, accepted output
length 600 (ratio 0.6), rejected output length 400 (ratio 0.4). -/
theorem format_guardrail_spec_witness :
    format_content_with_llm true true "k" demoFmtInput (.ok demoFmtOutput) =
      some (String.mk (List.replicate 600 'b')) ∧
    format_content_with_llm true true "k" demoFmtInput (.ok demoFmtOutputShort) = none := by
  constructor
  · have h := (format_guardrail_spec "k" demoFmtInput demoFmtOutput (by decide)
      (by decide) (by decide)).2
    have hnum : ((pyStrip (demoFmtOutput.getD "")).length : ℚ) = 600 := by
      norm_num [show (pyStrip (demoFmtOutput.getD "")).length = 600 from by decide]
    have hden : ((max (pyTake (pyStrip demoFmtInput) LLM_FORMAT_INPUT_CHAR_LIMIT).length 1 : Nat) : ℚ) = 1000 := by
      norm_num [show (max (pyTake (pyStrip demoFmtInput) LLM_FORMAT_INPUT_CHAR_LIMIT).length 1 : Nat) = 1000 from by decide]
    rw [hnum, hden] at h
    have := h (by norm_num)
    rw [this]
    have : pyStrip (demoFmtOutput.getD "") = String.mk (List.replicate 600 'b') := by decide
    rw [this]
  · have h := (format_guardrail_spec "k" demoFmtInput demoFmtOutputShort (by decide)
      (by decide) (by decide)).1
    have hnum : ((pyStrip (demoFmtOutputShort.getD "")).length : ℚ) = 400 := by
      norm_num [show (pyStrip (demoFmtOutputShort.getD "")).length = 400 from by decide]
    have hden : ((max (pyTake (pyStrip demoFmtInput) LLM_FORMAT_INPUT_CHAR_LIMIT).length 1 : Nat) : ℚ) = 1000 := by
      norm_num [show (max (pyTake (pyStrip demoFmtInput) LLM_FORMAT_INPUT_CHAR_LIMIT).length 1 : Nat) = 1000 from by decide]
    rw [hnum, hden] at h
    exact h (by norm_num)

/-- C5: whatever the flag, key, input and call behaviour (including any
exception, modelled by `err`, and any malformed/empty response), the title
generator returns absent or a nonempty stripped title truncated to at most 80
characters — it never raises, so it can never fail the pipeline. -/
theorem generate_title_shape (llmEnabled : Bool) (apiKey content : String)
    (call : LLMCallResult) :
    (generate_title_with_llm llmEnabled apiKey content call).result = none ∨
    ∃ t, (generate_title_with_llm llmEnabled apiKey content call).result = some t ∧
      t ≠ "" ∧ t.length ≤ MAX_TITLE_LENGTH ∧
      ∃ m, t = pyTake (pyStrip m) MAX_TITLE_LENGTH := by
  unfold generate_title_with_llm
  by_cases h1 : llmEnabled = false
  · rw [if_pos h1]; left; rfl
  · rw [if_neg h1]
    by_cases h2 : apiKey = ""
    · rw [if_pos h2]; left; rfl
    · rw [if_neg h2]
      by_cases h3 : pyStrip content = ""
      · rw [if_pos h3]; left; rfl
      · rw [if_neg h3]
        cases call with
        | err => left; rfl
        | ok message =>
          by_cases h4 : pyStrip (message.getD "") = ""
          · left
            show (if pyStrip (message.getD "") = "" then (⟨none, true⟩ : TitleGenResult)
              else ⟨some (pyTake (pyStrip (message.getD "")) MAX_TITLE_LENGTH), true⟩).result = none
            rw [if_pos h4]
          · right
            refine ⟨pyTake (pyStrip (message.getD "")) MAX_TITLE_LENGTH, ?_,
              pyTake_ne_empty _ _ h4 (by decide),
              pyTake_length _ _, ⟨message.getD "", rfl⟩⟩
            show (if pyStrip (message.getD "") = "" then (⟨none, true⟩ : TitleGenResult)
              else ⟨some (pyTake (pyStrip (message.getD "")) MAX_TITLE_LENGTH), true⟩).result = _
            rw [if_neg h4]

/-- C8: the PATCH body always contains `"content"` mapped to the content, and
contains `"title"` exactly when a nonempty title is present (mapped to it);
an empty or absent title never produces a `"title"` key. -/
theorem update_payload_spec (content : String) (title : Option String) :
    ("content", content) ∈ update_document_payload content title ∧
    ∀ t, ("title", t) ∈ update_document_payload content title ↔ title = some t ∧ t ≠ "" := by
  have hne : ("title" : String) ≠ "content" := by decide
  cases title with
  | none =>
    refine ⟨by simp [update_document_payload], ?_⟩
    intro t
    simp [update_document_payload, hne]
  | some u =>
    by_cases hu : u = ""
    · refine ⟨by simp [update_document_payload, hu], ?_⟩
      intro t
      simp only [update_document_payload, if_pos hu]
      constructor
      · intro h
        simp [Prod.ext_iff, hne] at h
      · rintro ⟨h1, h2⟩
        exact absurd (Option.some.inj h1) (by subst hu; exact fun he => h2 he.symm)
    · refine ⟨by simp [update_document_payload, hu], ?_⟩
      intro t
      simp only [update_document_payload, if_neg hu]
      constructor
      · intro h
        rcases List.mem_cons.mp h with h | h
        · exact absurd (congrArg Prod.fst h) hne
        · rcases List.mem_cons.mp h with h | h
          · have := Prod.mk.injEq .. ▸ h
            injection h with h1 h2
            exact ⟨by rw [h2], by rw [h2]; exact hu⟩
          · simp at h
      · rintro ⟨h1, h2⟩
        have : u = t := Option.some.inj h1
        subst this
        simp

/-- C10: with the LLM enabled and a key configured, an input that strips to
empty makes the title generator return absent without issuing the network
call. -/
theorem generate_title_skips_empty (apiKey content : String) (call : LLMCallResult)
    (hkey : apiKey ≠ "") (hempty : pyStrip content = "") :
    generate_title_with_llm true apiKey content call = ⟨none, false⟩ := by
  unfold generate_title_with_llm
  rw [if_neg (by simp), if_neg hkey, if_pos hempty]

/-- Witness for C10: whitespace-only content, flag set, key configured, even
with a call behaviour that would return a title. -/
theorem generate_title_skips_empty_witness :
    generate_title_with_llm true "k" "  " (.ok (some "A title")) = ⟨none, false⟩ :=
  generate_title_skips_empty "k" "  " (.ok (some "A title")) (by decide) (by decide)


/-! ## Claim theorems: pipeline orchestration -/

/-- C1: once a positive document id is extracted, a failure in any stage
before the backend update — missing backend config, a failed download, a
failed rasterization, or a failed OCR pass — aborts the invocation with a
classified failure (502 or 500) and the backend update is never issued: no
content, partial or otherwise, is written. -/
theorem no_partial_write_on_stage_failure (w : World) (body : WebhookBody) (id : Nat)
    (hc : w.clientReady = true) (hex : extract_doc_id (webhook_doc_url body) = some id)
    (hid : id ≠ 0) (hfail : preUpdateFailure w) :
    (paperless_webhook w body).2.updateSent = none ∧
    ((paperless_webhook w body).1 = .upstream502 ∨ (paperless_webhook w body).1 = .failed500) := by
  obtain ⟨k, rfl⟩ : ∃ k, id = k + 1 := ⟨id - 1, by omega⟩
  by_cases hcfg : w.configOk = true
  case neg =>
    have hcfg' : w.configOk = false := by revert hcfg; cases w.configOk <;> simp
    simp [paperless_webhook, hc, hex, hcfg']
  case pos =>
    rcases hfail with hfail | hdl | hdl | ⟨data, ct, hdl, hrest⟩
    · rw [hcfg] at hfail; exact absurd hfail (by simp)
    · simp [paperless_webhook, hc, hex, hcfg, hdl]
    · simp [paperless_webhook, hc, hex, hcfg, hdl]
    · rcases hrest with himg | ⟨imgs, himg, hocr⟩
      · simp [paperless_webhook, hc, hex, hcfg, hdl, himg]
      · simp [paperless_webhook, hc, hex, hcfg, hdl, himg, hocr]

/-- Witness for C1: a failed (non-2xx) download aborts with 502 and no update. -/
theorem no_partial_write_on_stage_failure_witness :
    (paperless_webhook downloadFailWorld docUrlBody7).2.updateSent = none ∧
    ((paperless_webhook downloadFailWorld docUrlBody7).1 = .upstream502 ∨
      (paperless_webhook downloadFailWorld docUrlBody7).1 = .failed500) :=
  no_partial_write_on_stage_failure downloadFailWorld docUrlBody7 7 rfl (by decide)
    (by decide) (Or.inr (Or.inl rfl))

/-- C2 counterexample: in the startup window where the HTTP client is ready
but the OCR engine is not yet initialized, a webhook invocation does NOT stop
before I/O: the backend download is issued (and the failure is reported as
500, not as a pre-I/O rejection), contradicting the claim's "no I/O is
performed — the backend download is not issued". -/
theorem engine_not_ready_counterexample :
    engineNotReadyWorld.engineReady = false ∧
    (paperless_webhook engineNotReadyWorld docUrlBody3).2.downloadCalled = true ∧
    (paperless_webhook engineNotReadyWorld docUrlBody3).1 = .failed500 := by
  refine ⟨rfl, ?_, ?_⟩ <;> rfl

/-- C2 (amended): if the OCR engine is not yet initialized while the client is
ready and the request carries a positive document id, the invocation fails
with HTTP 500 and no backend update is issued — but only after the backend
download has been issued (the engine-readiness failure arises in the OCR
stage, after download and rasterization). -/
theorem engine_not_ready_fails_after_download (w : World) (body : WebhookBody) (id : Nat)
    (data : Bytes) (ct : String) (img : Nat) (rest : List Nat)
    (hc : w.clientReady = true) (hcfg : w.configOk = true) (heng : w.engineReady = false)
    (hex : extract_doc_id (webhook_doc_url body) = some id) (hid : id ≠ 0)
    (hdl : w.download = .ok data ct)
    (himg : images_from_bytes w.pdfDecode w.imgDecode data ct = .ok (img :: rest)) :
    paperless_webhook w body = (.failed500, ⟨true, none⟩) := by
  obtain ⟨k, rfl⟩ : ∃ k, id = k + 1 := ⟨id - 1, by omega⟩
  have hocr : ocr_all w.engineReady w.engine (img :: rest) = .error () := by
    simp [ocr_all, ocr_image, heng]
  simp [paperless_webhook, hc, hex, hcfg, hdl, himg, hocr]

/-- Witness for the amended C2. -/
theorem engine_not_ready_fails_after_download_witness :
    paperless_webhook engineNotReadyWorld docUrlBody3 = (.failed500, ⟨true, none⟩) :=
  engine_not_ready_fails_after_download engineNotReadyWorld docUrlBody3 3
    [37, 80, 68, 70] "application/pdf" 0 [] rfl rfl rfl (by decide) (by decide) rfl rfl

/-- C9: with the client ready, either the extracted document id is a positive
integer, or the invocation is rejected with HTTP 400 before any backend I/O
(no download and no update) — in particular for a `/documents/0/` URL
(captured id 0, falsy) and for a body with neither `doc_url` nor `url`. -/
theorem webhook_positive_id_or_400 (w : World) (body : WebhookBody)
    (hc : w.clientReady = true) :
    (∃ id, extract_doc_id (webhook_doc_url body) = some id ∧ 0 < id) ∨
    paperless_webhook w body = (.badRequest400, ⟨false, none⟩) := by
  cases hex : extract_doc_id (webhook_doc_url body) with
  | none => right; simp [paperless_webhook, hc, hex]
  | some id =>
    cases id with
    | zero => right; simp [paperless_webhook, hc, hex]
    | succ k => left; exact ⟨k + 1, rfl, Nat.succ_pos k⟩

/-- Witness for C9: a URL capturing id 0 is rejected with 400 and no
backend call. -/
theorem webhook_positive_id_or_400_witness :
    paperless_webhook healthyWorld docUrlBody0 = (.badRequest400, ⟨false, none⟩) := by
  rcases webhook_positive_id_or_400 healthyWorld docUrlBody0 rfl with h | h
  · exfalso
    rcases h with ⟨id, hid, hpos⟩
    have h0 : extract_doc_id (webhook_doc_url docUrlBody0) = some 0 := by decide
    rw [h0] at hid
    cases hid
    omega
  · exact h


end Paperless
